import Mathlib

/-!
Verification of the sandboxed arithmetic expression evaluator of
`src/canvas_chat/plugins/calculator_tool.py`.

Modelling conventions:
- Python `int` is `Int` (arbitrary precision in both).
- Python `float` is modelled as `ℚ` tagged with a float kind. All float
  values appearing in the verified properties (0.25, 5.0, the IEEE-754
  doubles stored in `math.pi`, `math.e`, `math.tau`) are exactly
  representable, so the model is exact on every input a theorem touches.
  IEEE rounding of inexact operations and float overflow to `inf` are
  outside the model; no theorem below depends on them.
- Real-valued transcendental results (math.sqrt, sin, cos, tan, log,
  log10, log2, exp, fractional powers) are not representable in ℚ; their
  numeric value is stood in for by the placeholder `approxReal`. No
  theorem below depends on the value of `approxReal` - only on the
  arity/domain checking around those calls, which is modelled exactly.
- Python exceptions are modelled by `Except Err`: `Err.valueError` for
  `ValueError` (every explicit `raise` in `_eval`, plus host domain
  errors), `Err.zeroDivision` for `ZeroDivisionError`, `Err.overflow`
  for `OverflowError` and `Err.typeError` for every other exception
  (`TypeError` from arity mismatches and bad operand types), mirroring
  the four `except` clauses of `CalculatorTool.execute`.
-/

namespace CanvasChat

/-- Python constant payloads as they appear in `ast.Constant` nodes that the
grammar of interest can produce. `str` and `noneConst` fail the
`isinstance(node.value, (int, float))` check in `_eval`. -/
inductive PyConst where
  | int (n : Int)
  | float (q : ℚ)
  | str (s : String)
  | noneConst
  deriving Repr, DecidableEq

/-- Python `ast` binary operator classes. Only the first seven are keys of
`SAFE_OPERATORS`; the rest exist so the `op_type not in SAFE_OPERATORS`
check is modelled faithfully. -/
inductive BOp where
  | add | sub | mult | div | floorDiv | mod | pow
  | lshift | rshift | bitOr | bitXor | bitAnd | matMult
  deriving Repr, DecidableEq

/-- Python `ast` unary operator classes. Only `usub`/`uadd` are keys of
`SAFE_OPERATORS`. -/
inductive UOp where
  | usub | uadd | notOp | invert
  deriving Repr, DecidableEq

/-- Python class name of a binary operator node, used in the
"Unsupported operator" message of `_eval`. -/
def BOp.astName : BOp → String
  | .add => "Add" | .sub => "Sub" | .mult => "Mult" | .div => "Div"
  | .floorDiv => "FloorDiv" | .mod => "Mod" | .pow => "Pow"
  | .lshift => "LShift" | .rshift => "RShift" | .bitOr => "BitOr"
  | .bitXor => "BitXor" | .bitAnd => "BitAnd" | .matMult => "MatMult"

/-- Python class name of a unary operator node. -/
def UOp.astName : UOp → String
  | .usub => "USub" | .uadd => "UAdd" | .notOp => "Not" | .invert => "Invert"

/-- The shape of Python `ast` expression nodes reachable from
`ast.parse(expression, mode="eval")`, as walked by `_eval`.
`call` carries the `keywords` field of `ast.Call` (keyword name, or none
for a `**`-splat, paired with the value expression); the source never
reads it. `attrAccess` is `ast.Attribute`; `other` stands for every
remaining `ast` node kind (Lambda, Subscript, Compare, ...), carrying its
Python class name: `_eval` treats all of them uniformly in its final
`else` branch. -/
inductive PyExpr where
  | const (c : PyConst)
  | name (id : String)
  | binOp (op : BOp) (left right : PyExpr)
  | unaryOp (op : UOp) (operand : PyExpr)
  | call (func : PyExpr) (args : List PyExpr)
      (keywords : List (Option String × PyExpr))
  | list (elts : List PyExpr)
  | tuple (elts : List PyExpr)
  | attrAccess (value : PyExpr) (attr : String)
  | other (tag : String)
  deriving Repr

/-- Values produced by `_eval`: Python ints, floats, lists and tuples. -/
inductive Value where
  | int (n : Int)
  | float (q : ℚ)
  | list (vs : List Value)
  | tuple (vs : List Value)
  deriving Repr

/-- Exception classes distinguished by the `except` clauses of
`CalculatorTool.execute`. -/
inductive Err where
  | valueError (msg : String)
  | zeroDivision
  | overflow
  | typeError (msg : String)
  deriving Repr, DecidableEq

/-- Numeric payload of a value, if it is an int or float. -/
def Value.asNum? : Value → Option ℚ
  | .int n => some (n : ℚ)
  | .float q => some q
  | _ => none

/-- Whether a value is numeric (Python int or float). -/
def Value.isNum : Value → Bool
  | .int _ => true
  | .float _ => true
  | _ => false

/-- Whether a value is numerically zero (`0` or `0.0`), the condition under
which Python raises `ZeroDivisionError` for `/`, `//` and `%`. -/
def Value.isZero : Value → Bool
  | .int n => n == 0
  | .float q => q == 0
  | _ => false

/-- Placeholder for real-valued host results (math.sqrt, sin, ...) that are
not representable in ℚ. No theorem in this file depends on its value. -/
def approxReal (tag : String) (args : List ℚ) : ℚ :=
  match tag, args with
  | _, _ => 0

/-- Python `operator.add`: int + int stays int, any float operand promotes
to float; lists and tuples concatenate with their own kind; anything else
is a `TypeError`. -/
def pyAdd (l r : Value) : Except Err Value :=
  match l, r with
  | .int a, .int b => .ok (.int (a + b))
  | .int a, .float y => .ok (.float ((a : ℚ) + y))
  | .float x, .int b => .ok (.float (x + (b : ℚ)))
  | .float x, .float y => .ok (.float (x + y))
  | .list xs, .list ys => .ok (.list (xs ++ ys))
  | .tuple xs, .tuple ys => .ok (.tuple (xs ++ ys))
  | _, _ => .error (.typeError "unsupported operand type(s) for +")

/-- Python `operator.sub` on the value domain. -/
def pySub (l r : Value) : Except Err Value :=
  match l, r with
  | .int a, .int b => .ok (.int (a - b))
  | .int a, .float y => .ok (.float ((a : ℚ) - y))
  | .float x, .int b => .ok (.float (x - (b : ℚ)))
  | .float x, .float y => .ok (.float (x - y))
  | _, _ => .error (.typeError "unsupported operand type(s) for -")

/-- Repeat a sequence `n` times (Python `seq * n`; non-positive `n` gives
the empty sequence). -/
def seqRepeat (vs : List Value) (n : Int) : List Value :=
  (List.replicate n.toNat vs).flatten

/-- Python `operator.mul`: numeric multiplication with int/float promotion;
sequence repetition for list*int / int*list (and tuples). -/
def pyMul (l r : Value) : Except Err Value :=
  match l, r with
  | .int a, .int b => .ok (.int (a * b))
  | .int a, .float y => .ok (.float ((a : ℚ) * y))
  | .float x, .int b => .ok (.float (x * (b : ℚ)))
  | .float x, .float y => .ok (.float (x * y))
  | .list xs, .int n => .ok (.list (seqRepeat xs n))
  | .int n, .list xs => .ok (.list (seqRepeat xs n))
  | .tuple xs, .int n => .ok (.tuple (seqRepeat xs n))
  | .int n, .tuple xs => .ok (.tuple (seqRepeat xs n))
  | _, _ => .error (.typeError "unsupported operand type(s) for *")

/-- Python `operator.truediv`: defined on numbers only; a zero divisor
raises `ZeroDivisionError`; the result is always float-kinded, even for
two evenly divisible ints. -/
def pyDiv (l r : Value) : Except Err Value :=
  match l.asNum?, r.asNum? with
  | some x, some y =>
      if y = 0 then .error .zeroDivision else .ok (.float (x / y))
  | _, _ => .error (.typeError "unsupported operand type(s) for /")

/-- Python `operator.floordiv`: int // int stays int (floor division), a
float operand gives a float-kinded floor; zero divisor raises
`ZeroDivisionError`. -/
def pyFloorDiv (l r : Value) : Except Err Value :=
  match l, r with
  | .int a, .int b =>
      if b = 0 then .error .zeroDivision else .ok (.int (Int.fdiv a b))
  | _, _ =>
      match l.asNum?, r.asNum? with
      | some x, some y =>
          if y = 0 then .error .zeroDivision
          else .ok (.float ((Rat.floor (x / y) : ℤ) : ℚ))
      | _, _ => .error (.typeError "unsupported operand type(s) for //")

/-- Python `operator.mod`: remainder with the divisor sign (floor
convention); int % int stays int; zero divisor raises
`ZeroDivisionError`. -/
def pyMod (l r : Value) : Except Err Value :=
  match l, r with
  | .int a, .int b =>
      if b = 0 then .error .zeroDivision else .ok (.int (Int.fmod a b))
  | _, _ =>
      match l.asNum?, r.asNum? with
      | some x, some y =>
          if y = 0 then .error .zeroDivision
          else .ok (.float (x - y * ((Rat.floor (x / y) : ℤ) : ℚ)))
      | _, _ => .error (.typeError "unsupported operand type(s) for %")

/-- Rational power with integer exponent; a negative exponent inverts
(never called with base 0 and negative exponent). -/
def qpowInt (x : ℚ) (n : Int) : ℚ :=
  if n ≥ 0 then x ^ n.toNat else 1 / x ^ (-n).toNat

/-- Python `operator.pow`: int ** nonneg-int stays int; int ** negative-int
is a float (`0 ** negative` raises `ZeroDivisionError`); any float operand
gives a float. A non-integral exponent yields a real-valued (possibly
complex-promoted) host result, stood in for by `approxReal`. -/
def pyPow (l r : Value) : Except Err Value :=
  match l, r with
  | .int a, .int b =>
      if b ≥ 0 then .ok (.int (a ^ b.toNat))
      else if a = 0 then .error .zeroDivision
      else .ok (.float (qpowInt (a : ℚ) b))
  | _, _ =>
      match l.asNum?, r.asNum? with
      | some x, some y =>
          if y.den = 1 then
            if x = 0 ∧ y.num < 0 then .error .zeroDivision
            else .ok (.float (qpowInt x y.num))
          else .ok (.float (approxReal "pow" [x, y]))
      | _, _ => .error (.typeError "unsupported operand type(s) for **")

/-- Python `operator.neg`: negate preserving numeric kind; `TypeError` on
sequences. -/
def pyNeg (v : Value) : Except Err Value :=
  match v with
  | .int n => .ok (.int (-n))
  | .float q => .ok (.float (-q))
  | _ => .error (.typeError "bad operand type for unary -")

/-- Python `operator.pos`: identity on numbers; `TypeError` on
sequences. -/
def pyPos (v : Value) : Except Err Value :=
  match v with
  | .int n => .ok (.int n)
  | .float q => .ok (.float q)
  | _ => .error (.typeError "bad operand type for unary +")

/-- The binary-operator half of the `SAFE_OPERATORS` dict of the source:
maps an `ast` binary operator class to its `operator`-module function, or
`none` when the class is not a key (so `_eval` raises "Unsupported
operator"). The unary half is `SAFE_UNARY`; the split mirrors the fact
that `ast.BinOp` and `ast.UnaryOp` carry disjoint operator classes. -/
def SAFE_OPERATORS : BOp → Option (Value → Value → Except Err Value)
  | .add => some pyAdd
  | .sub => some pySub
  | .mult => some pyMul
  | .div => some pyDiv
  | .floorDiv => some pyFloorDiv
  | .mod => some pyMod
  | .pow => some pyPow
  | _ => none

/-- The unary-operator half of the `SAFE_OPERATORS` dict. -/
def SAFE_UNARY : UOp → Option (Value → Except Err Value)
  | .usub => some pyNeg
  | .uadd => some pyPos
  | _ => none

/-- Application of a whitelisted binary operator to two already-evaluated
operands: `SAFE_OPERATORS[op_type](left, right)` in the source. -/
def applyBin (op : BOp) (l r : Value) : Except Err Value :=
  match SAFE_OPERATORS op with
  | some f => f l r
  | none => .error (.valueError ("Unsupported operator: " ++ op.astName))

/-- A whitelisted host function as called by
`SAFE_FUNCTIONS[func_name](*args)`: CPython checks the positional argument
count first (raising `TypeError` with a message naming the expected and
received counts) and only then runs the body. -/
structure FuncSpec where
  arity : Nat → Bool
  arityMsg : Nat → String
  body : List Value → Except Err Value

/-- Calling a whitelisted function on already-evaluated arguments, with
CPython's argument-count check up front. -/
def applyFuncSpec (spec : FuncSpec) (args : List Value) : Except Err Value :=
  if spec.arity args.length then spec.body args
  else .error (.typeError (spec.arityMsg args.length))

/-- Banker's rounding (round-half-to-even) of a rational to an integer,
as performed by Python's builtin `round`. -/
def roundQ (q : ℚ) : Int :=
  let f := Rat.floor q
  let frac := q - (f : ℚ)
  if frac < 1/2 then f
  else if frac > 1/2 then f + 1
  else if f % 2 = 0 then f else f + 1

/-- Fold of Python `min`/`max` over the tail of a sequence, keeping the
first extremal element; comparison is defined on numbers only. -/
def foldExtreme (lt : ℚ → ℚ → Bool) : Value → List Value → Except Err Value
  | acc, [] => .ok acc
  | acc, w :: ws =>
      match acc.asNum?, w.asNum? with
      | some x, some y => foldExtreme lt (if lt y x then w else acc) ws
      | _, _ =>
          .error (.typeError
            "comparison not supported between non-numeric operands")

/-- Python `min`/`max` over a nonempty list of already-extracted items. -/
def pyExtreme (emptyMsg : String) (lt : ℚ → ℚ → Bool) :
    List Value → Except Err Value
  | [] => .error (.valueError emptyMsg)
  | v :: vs => foldExtreme lt v vs

/-- Python `sum`: left fold of `+` over the sequence elements, starting
from `start` (default `0`, an int, so an all-int sequence sums to an
int). -/
def foldSum : Value → List Value → Except Err Value
  | acc, [] => .ok acc
  | acc, w :: ws =>
      match pyAdd acc w with
      | .ok a => foldSum a ws
      | .error e => .error e

/-- Elements of a value that Python can iterate over (lists and tuples in
this value domain). -/
def Value.elems? : Value → Option (List Value)
  | .list vs => some vs
  | .tuple vs => some vs
  | _ => none

/-- Python builtin `abs` (exactly one argument). -/
def absSpec : FuncSpec where
  arity n := n == 1
  arityMsg n := "abs() takes exactly one argument (" ++ toString n ++ " given)"
  body args :=
    match args with
    | [.int n] => .ok (.int (if n < 0 then -n else n))
    | [.float q] => .ok (.float (if q < 0 then -q else q))
    | _ => .error (.typeError "bad operand type for abs()")

/-- Python builtin `round` (one or two arguments, banker's rounding; a
one-argument call on a float returns an int). -/
def roundSpec : FuncSpec where
  arity n := n == 1 || n == 2
  arityMsg n := "round() takes at most 2 arguments (" ++ toString n ++ " given)"
  body args :=
    match args with
    | [.int n] => .ok (.int n)
    | [.float q] => .ok (.int (roundQ q))
    | [.int n, .int d] =>
        if d ≥ 0 then .ok (.int n)
        else .ok (.int (roundQ ((n : ℚ) / (10 : ℚ) ^ (-d).toNat)
          * 10 ^ (-d).toNat))
    | [.float q, .int d] =>
        if d ≥ 0 then
          .ok (.float ((roundQ (q * (10 : ℚ) ^ d.toNat) : ℤ)
            / (10 : ℚ) ^ d.toNat))
        else
          .ok (.float ((roundQ (q / (10 : ℚ) ^ (-d).toNat) * 10 ^ (-d).toNat
            : ℤ) : ℚ))
    | [_, .float _] =>
        .error (.typeError "ndigits cannot be interpreted as an integer")
    | _ => .error (.typeError "type not supported by round()")

/-- Python builtin `min`: at least one argument; a single argument must be
an iterable (list/tuple here), several arguments are compared directly. -/
def minSpec : FuncSpec where
  arity n := n ≥ 1
  arityMsg n := "min expected at least 1 argument, got " ++ toString n
  body args :=
    match args with
    | [v] =>
        match v.elems? with
        | some vs => pyExtreme "min() arg is an empty sequence"
            (fun y x => y < x) vs
        | none => .error (.typeError "object is not iterable")
    | vs => pyExtreme "min() arg is an empty sequence" (fun y x => y < x) vs

/-- Python builtin `max`, mirror image of `min`. -/
def maxSpec : FuncSpec where
  arity n := n ≥ 1
  arityMsg n := "max expected at least 1 argument, got " ++ toString n
  body args :=
    match args with
    | [v] =>
        match v.elems? with
        | some vs => pyExtreme "max() arg is an empty sequence"
            (fun y x => y > x) vs
        | none => .error (.typeError "object is not iterable")
    | vs => pyExtreme "max() arg is an empty sequence" (fun y x => y > x) vs

/-- Python builtin `sum` (one or two arguments; the first must be
iterable; folds `+` from the start value, default int 0). -/
def sumSpec : FuncSpec where
  arity n := n == 1 || n == 2
  arityMsg n :=
    "sum() takes at most 2 arguments (" ++ toString n ++ " given)"
  body args :=
    match args with
    | [v] =>
        match v.elems? with
        | some vs => foldSum (.int 0) vs
        | none => .error (.typeError "object is not iterable")
    | [v, start] =>
        match v.elems? with
        | some vs => foldSum start vs
        | none => .error (.typeError "object is not iterable")
    | _ => .error (.typeError "sum() argument error")

/-- A one-argument `math`-module function of a real variable: checks the
argument count, then the domain predicate (raising the `ValueError`
"math domain error" outside it), and otherwise produces a real-valued
result stood in for by `approxReal`. -/
def mathRealSpec (nm : String) (domain : ℚ → Bool) : FuncSpec where
  arity n := n == 1
  arityMsg n :=
    nm ++ "() takes exactly one argument (" ++ toString n ++ " given)"
  body args :=
    match args with
    | [v] =>
        match v.asNum? with
        | some x =>
            if domain x then .ok (.float (approxReal nm [x]))
            else .error (.valueError "math domain error")
        | none => .error (.typeError "must be real number")
    | _ => .error (.typeError "argument error")

/-- Python `math.log` (one or two arguments, positive domain). -/
def logSpec : FuncSpec where
  arity n := n == 1 || n == 2
  arityMsg n :=
    "log() takes at most 2 arguments (" ++ toString n ++ " given)"
  body args :=
    match args with
    | [v] =>
        match v.asNum? with
        | some x =>
            if x > 0 then .ok (.float (approxReal "log" [x]))
            else .error (.valueError "math domain error")
        | none => .error (.typeError "must be real number")
    | [v, b] =>
        match v.asNum?, b.asNum? with
        | some x, some y =>
            if x > 0 ∧ y > 0 then .ok (.float (approxReal "log" [x, y]))
            else .error (.valueError "math domain error")
        | _, _ => .error (.typeError "must be real number")
    | _ => .error (.typeError "argument error")

/-- Python `math.floor` (exactly one argument; int on ints and floats). -/
def floorSpec : FuncSpec where
  arity n := n == 1
  arityMsg n :=
    "floor() takes exactly one argument (" ++ toString n ++ " given)"
  body args :=
    match args with
    | [.int n] => .ok (.int n)
    | [.float q] => .ok (.int (Rat.floor q))
    | _ => .error (.typeError "must be real number")

/-- Python `math.ceil` (exactly one argument). -/
def ceilSpec : FuncSpec where
  arity n := n == 1
  arityMsg n :=
    "ceil() takes exactly one argument (" ++ toString n ++ " given)"
  body args :=
    match args with
    | [.int n] => .ok (.int n)
    | [.float q] => .ok (.int (Rat.ceil q))
    | _ => .error (.typeError "must be real number")

/-- Python builtin `pow` (two or three arguments; the two-argument form is
`operator.pow`; the three-argument form is modular power on ints). -/
def powSpec : FuncSpec where
  arity n := n == 2 || n == 3
  arityMsg n := "pow expected 2 or 3 arguments, got " ++ toString n
  body args :=
    match args with
    | [a, b] => pyPow a b
    | [.int a, .int b, .int m] =>
        if m = 0 then .error (.valueError "pow() 3rd argument cannot be 0")
        else if b < 0 then
          .error (.valueError "base is not invertible for the given modulus")
        else .ok (.int (Int.fmod (a ^ b.toNat) m))
    | [_, _, _] =>
        .error (.typeError
          "pow() 3rd argument not allowed unless all arguments are integers")
    | _ => .error (.typeError "argument error")

/-- The `SAFE_FUNCTIONS` dict of the source, in source order: lowercase
name to host function. -/
def SAFE_FUNCTIONS : List (String × FuncSpec) :=
  [ ("abs", absSpec),
    ("round", roundSpec),
    ("min", minSpec),
    ("max", maxSpec),
    ("sum", sumSpec),
    ("sqrt", mathRealSpec "sqrt" (fun x => x ≥ 0)),
    ("sin", mathRealSpec "sin" (fun _ => true)),
    ("cos", mathRealSpec "cos" (fun _ => true)),
    ("tan", mathRealSpec "tan" (fun _ => true)),
    ("log", logSpec),
    ("log10", mathRealSpec "log10" (fun x => x > 0)),
    ("log2", mathRealSpec "log2" (fun x => x > 0)),
    ("exp", mathRealSpec "exp" (fun _ => true)),
    ("floor", floorSpec),
    ("ceil", ceilSpec),
    ("pow", powSpec) ]

/-- ASCII case folding of one character, as `str.lower` acts on the ASCII
range. -/
def lowerChar (c : Char) : Char :=
  if 65 ≤ c.toNat ∧ c.toNat ≤ 90 then Char.ofNat (c.toNat + 32) else c

/-- Python `str.lower()` restricted to ASCII, which covers every
identifier compared against the whitelist keys (all keys are ASCII, so a
lookup of a case-folded identifier agrees with the host's full Unicode
folding on every name that can resolve). -/
def pyLower (s : String) : String :=
  String.mk (s.data.map lowerChar)

/-- The IEEE-754 double stored in `math.pi`, exactly
(0x1.921fb54442d18p+1). -/
def piFloat : ℚ := 884279719003555 / 281474976710656

/-- The IEEE-754 double stored in `math.e`, exactly
(0x1.5bf0a8b145769p+1). -/
def eFloat : ℚ := 6121026514868073 / 2251799813685248

/-- The IEEE-754 double stored in `math.tau`, exactly twice `piFloat`. -/
def tauFloat : ℚ := 884279719003555 / 140737488355328

/-- The `SAFE_CONSTANTS` dict of the source: lowercase name to float
value. -/
def SAFE_CONSTANTS : List (String × Value) :=
  [ ("pi", .float piFloat),
    ("e", .float eFloat),
    ("tau", .float tauFloat) ]

mutual

/-- The recursive `_eval` walk of `safe_eval` over a Python AST node, with
the branches in source order:
- `Constant`: int/float pass the `isinstance` check, anything else raises.
- `Name`: case-folded lookup in `SAFE_CONSTANTS`.
- `BinOp`/`UnaryOp`: the operator class is checked against
  `SAFE_OPERATORS` before either operand is evaluated.
- `Call`: the callee must be a bare name, its case-folded name must be in
  `SAFE_FUNCTIONS`, then the positional `args` are evaluated left to
  right and the function applied. The `keywords` field of the node is
  never read by the source, so it is dropped here too.
- `List`/`Tuple`: elementwise evaluation into the matching sequence kind.
- everything else: "Unsupported expression type". -/
def evalPy : PyExpr → Except Err Value
  | .const c =>
      match c with
      | .int n => .ok (.int n)
      | .float q => .ok (.float q)
      | .str _ =>
          .error (.valueError "Unsupported constant type: <class 'str'>")
      | .noneConst =>
          .error (.valueError "Unsupported constant type: <class 'NoneType'>")
  | .name id =>
      match SAFE_CONSTANTS.lookup (pyLower id) with
      | some v => .ok v
      | none => .error (.valueError ("Unknown variable: " ++ id))
  | .binOp op l r =>
      match SAFE_OPERATORS op with
      | none => .error (.valueError ("Unsupported operator: " ++ op.astName))
      | some f =>
          match evalPy l with
          | .error e => .error e
          | .ok lv =>
              match evalPy r with
              | .error e => .error e
              | .ok rv => f lv rv
  | .unaryOp op operand =>
      match SAFE_UNARY op with
      | none => .error (.valueError ("Unsupported operator: " ++ op.astName))
      | some f =>
          match evalPy operand with
          | .error e => .error e
          | .ok v => f v
  | .call fn args _kws =>
      match fn with
      | .name fid =>
          match SAFE_FUNCTIONS.lookup (pyLower fid) with
          | none => .error (.valueError ("Unknown function: " ++ fid))
          | some spec =>
              match evalArgs args with
              | .error e => .error e
              | .ok vs => applyFuncSpec spec vs
      | _ => .error (.valueError "Only simple function calls are allowed")
  | .list elts =>
      match evalArgs elts with
      | .error e => .error e
      | .ok vs => .ok (.list vs)
  | .tuple elts =>
      match evalArgs elts with
      | .error e => .error e
      | .ok vs => .ok (.tuple vs)
  | .attrAccess _ _ =>
      .error (.valueError "Unsupported expression type: Attribute")
  | .other tag =>
      .error (.valueError ("Unsupported expression type: " ++ tag))

/-- Left-to-right evaluation of a list of expressions, stopping at the
first failure (the list comprehension over `node.args` / `node.elts`). -/
def evalArgs : List PyExpr → Except Err (List Value)
  | [] => .ok []
  | e :: es =>
      match evalPy e with
      | .error er => .error er
      | .ok v =>
          match evalArgs es with
          | .error er => .error er
          | .ok vs => .ok (v :: vs)

end

/-- Tokens of the expression grammar (spec section 4.1): numbers,
identifiers, the operator symbols, brackets and the comma. The end of
input is represented by the end of the token list. -/
inductive Tok where
  | num (c : PyConst)
  | id (s : String)
  | op (s : String)
  | lparen | rparen | lbracket | rbracket | comma
  deriving Repr, DecidableEq

/-- Numeric value of a string of decimal digits. -/
def digitsToNat (ds : List Char) : Nat :=
  ds.foldl (fun a c => 10 * a + (c.toNat - 48)) 0

/-- Whether a character continues an identifier (letters, digits,
underscore). -/
def isIdentChar (c : Char) : Bool :=
  c.isAlphanum || c == '_'

/-- Prepend a token to the result of lexing the remainder. -/
def consTok (t : Tok) : Except Err (List Tok) → Except Err (List Tok)
  | .ok ts => .ok (t :: ts)
  | .error e => .error e

/-- Modelled from the spec: the source delegates lexing to the host's
`ast.parse` (CPython's tokenizer, which is not part of this repository),
so the token rules here follow spec section 4.1: skip whitespace; decimal
numeric literals with an optional fractional part (the integer/float kind
is decided by the presence of the fractional part); identifiers of
letters, digits and underscores not starting with a digit; the symbols
`+ - * / // % ** ( ) [ ] ,` with maximal munch for `//` and `**`; any
other character is a lexical error. The fuel argument strictly decreases
on every call and is sized by the caller so that it never runs out. -/
def lexAux : Nat → List Char → Except Err (List Tok)
  | _, [] => .ok []
  | 0, _ => .error (.valueError "Invalid expression syntax: lexer stalled")
  | f + 1, c :: rest =>
      if c == ' ' || c == '\t' || c == '\n' || c == '\r' then
        lexAux f rest
      else if c.isDigit then
        let ds := (c :: rest).takeWhile Char.isDigit
        let rest1 := (c :: rest).dropWhile Char.isDigit
        match rest1 with
        | '.' :: rest2 =>
            let fs := rest2.takeWhile Char.isDigit
            if fs.isEmpty then
              .error (.valueError
                "Invalid expression syntax: malformed number")
            else
              consTok (.num (.float ((digitsToNat ds : ℚ) +
                  (digitsToNat fs : ℚ) / (10 : ℚ) ^ fs.length)))
                (lexAux f (rest2.dropWhile Char.isDigit))
        | _ => consTok (.num (.int (digitsToNat ds))) (lexAux f rest1)
      else if c.isAlpha || c == '_' then
        consTok (.id (String.mk ((c :: rest).takeWhile isIdentChar)))
          (lexAux f ((c :: rest).dropWhile isIdentChar))
      else
        match c, rest with
        | '*', '*' :: rest2 => consTok (.op "**") (lexAux f rest2)
        | '/', '/' :: rest2 => consTok (.op "//") (lexAux f rest2)
        | '*', _ => consTok (.op "*") (lexAux f rest)
        | '/', _ => consTok (.op "/") (lexAux f rest)
        | '+', _ => consTok (.op "+") (lexAux f rest)
        | '-', _ => consTok (.op "-") (lexAux f rest)
        | '%', _ => consTok (.op "%") (lexAux f rest)
        | '(', _ => consTok .lparen (lexAux f rest)
        | ')', _ => consTok .rparen (lexAux f rest)
        | '[', _ => consTok .lbracket (lexAux f rest)
        | ']', _ => consTok .rbracket (lexAux f rest)
        | ',', _ => consTok .comma (lexAux f rest)
        | _, _ =>
            .error (.valueError
              ("Invalid expression syntax: unexpected character " ++
                String.mk [c]))

/-- Modelled from the spec: tokenization of the whole input (spec
section 4.1); each `lexAux` step consumes at least one character, so
`length + 1` fuel always suffices. -/
def tokenize (s : String) : Except Err (List Tok) :=
  lexAux (s.data.length + 1) s.data

/-- Parse-error result shared by the parser productions. -/
def parseFail {α : Type} (what : String) : Except Err α :=
  .error (.valueError ("Invalid expression syntax: " ++ what))

mutual

/-- Modelled from the spec: the `additive` production of the recursive
descent grammar of spec section 4.2 (the source delegates parsing to the
host's `ast.parse`, which is not part of this repository). Left
associative over `+` and `-`. -/
def parseAdd : Nat → List Tok → Except Err (PyExpr × List Tok)
  | 0, _ => parseFail "input too deeply nested"
  | f + 1, ts =>
      match parseMul f ts with
      | .error e => .error e
      | .ok (l, rest) => parseAddLoop f l rest

/-- Modelled from the spec: the iteration of the `additive` production. -/
def parseAddLoop : Nat → PyExpr → List Tok → Except Err (PyExpr × List Tok)
  | 0, _, _ => parseFail "input too deeply nested"
  | f + 1, acc, ts =>
      match ts with
      | .op "+" :: rest =>
          match parseMul f rest with
          | .error e => .error e
          | .ok (r, rest1) => parseAddLoop f (.binOp .add acc r) rest1
      | .op "-" :: rest =>
          match parseMul f rest with
          | .error e => .error e
          | .ok (r, rest1) => parseAddLoop f (.binOp .sub acc r) rest1
      | _ => .ok (acc, ts)

/-- Modelled from the spec: the `multiplicative` production, left
associative over `*`, `/`, `//`, `%`. -/
def parseMul : Nat → List Tok → Except Err (PyExpr × List Tok)
  | 0, _ => parseFail "input too deeply nested"
  | f + 1, ts =>
      match parseUnary f ts with
      | .error e => .error e
      | .ok (l, rest) => parseMulLoop f l rest

/-- Modelled from the spec: the iteration of the `multiplicative`
production. -/
def parseMulLoop : Nat → PyExpr → List Tok → Except Err (PyExpr × List Tok)
  | 0, _, _ => parseFail "input too deeply nested"
  | f + 1, acc, ts =>
      match ts with
      | .op "*" :: rest =>
          match parseUnary f rest with
          | .error e => .error e
          | .ok (r, rest1) => parseMulLoop f (.binOp .mult acc r) rest1
      | .op "/" :: rest =>
          match parseUnary f rest with
          | .error e => .error e
          | .ok (r, rest1) => parseMulLoop f (.binOp .div acc r) rest1
      | .op "//" :: rest =>
          match parseUnary f rest with
          | .error e => .error e
          | .ok (r, rest1) => parseMulLoop f (.binOp .floorDiv acc r) rest1
      | .op "%" :: rest =>
          match parseUnary f rest with
          | .error e => .error e
          | .ok (r, rest1) => parseMulLoop f (.binOp .mod acc r) rest1
      | _ => .ok (acc, ts)

/-- Modelled from the spec: the `unary` production
(`('+'|'-') unary | power`). -/
def parseUnary : Nat → List Tok → Except Err (PyExpr × List Tok)
  | 0, _ => parseFail "input too deeply nested"
  | f + 1, ts =>
      match ts with
      | .op "-" :: rest =>
          match parseUnary f rest with
          | .error e => .error e
          | .ok (e, rest1) => .ok (.unaryOp .usub e, rest1)
      | .op "+" :: rest =>
          match parseUnary f rest with
          | .error e => .error e
          | .ok (e, rest1) => .ok (.unaryOp .uadd e, rest1)
      | _ => parsePower f ts

/-- Modelled from the spec: the `power` production
(`atom ('**' unary)?`, right associative, so the right operand may carry
a sign while the left operand binds below a leading sign). -/
def parsePower : Nat → List Tok → Except Err (PyExpr × List Tok)
  | 0, _ => parseFail "input too deeply nested"
  | f + 1, ts =>
      match parseAtom f ts with
      | .error e => .error e
      | .ok (a, rest) =>
          match rest with
          | .op "**" :: rest1 =>
              match parseUnary f rest1 with
              | .error e => .error e
              | .ok (e, rest2) => .ok (.binOp .pow a e, rest2)
          | _ => .ok (a, rest)

/-- Modelled from the spec: the `atom` production: numbers, identifiers,
calls of a bare identifier (possibly with an empty argument list),
parenthesised expressions, tuple literals of two or more comma-separated
items, and list literals. -/
def parseAtom : Nat → List Tok → Except Err (PyExpr × List Tok)
  | 0, _ => parseFail "input too deeply nested"
  | f + 1, ts =>
      match ts with
      | .num c :: rest => .ok (.const c, rest)
      | .id s :: .lparen :: .rparen :: rest => .ok (.call (.name s) [] [], rest)
      | .id s :: .lparen :: rest =>
          match parseArgs f rest with
          | .error e => .error e
          | .ok (args, .rparen :: rest1) => .ok (.call (.name s) args [], rest1)
          | .ok (_, _) => parseFail "expected closing parenthesis"
      | .id s :: rest => .ok (.name s, rest)
      | .lparen :: rest =>
          match parseAdd f rest with
          | .error e => .error e
          | .ok (e, .rparen :: rest1) => .ok (e, rest1)
          | .ok (e, .comma :: rest1) =>
              match parseTupleRest f rest1 with
              | .error er => .error er
              | .ok (es, rest2) => .ok (.tuple (e :: es), rest2)
          | .ok (_, _) => parseFail "expected closing parenthesis"
      | .lbracket :: .rbracket :: rest => .ok (.list [], rest)
      | .lbracket :: rest =>
          match parseArgs f rest with
          | .error e => .error e
          | .ok (args, .rbracket :: rest1) => .ok (.list args, rest1)
          | .ok (_, _) => parseFail "expected closing bracket"
      | _ => parseFail "expected an operand"

/-- Modelled from the spec: the `arglist` production
(`expr (',' expr)*`), leaving the closing delimiter for the caller. -/
def parseArgs : Nat → List Tok → Except Err (List PyExpr × List Tok)
  | 0, _ => parseFail "input too deeply nested"
  | f + 1, ts =>
      match parseAdd f ts with
      | .error e => .error e
      | .ok (e, .comma :: rest) =>
          match parseArgs f rest with
          | .error er => .error er
          | .ok (es, rest1) => .ok (e :: es, rest1)
      | .ok (e, rest) => .ok ([e], rest)

/-- Modelled from the spec: the remaining items of a tuple literal after
the first comma, consuming the closing parenthesis (a tuple literal needs
two or more items, so at least one expression must follow the comma). -/
def parseTupleRest : Nat → List Tok → Except Err (List PyExpr × List Tok)
  | 0, _ => parseFail "input too deeply nested"
  | f + 1, ts =>
      match parseAdd f ts with
      | .error e => .error e
      | .ok (e, .rparen :: rest) => .ok ([e], rest)
      | .ok (e, .comma :: rest) =>
          match parseTupleRest f rest with
          | .error er => .error er
          | .ok (es, rest1) => .ok (e :: es, rest1)
      | .ok (_, _) => parseFail "expected closing parenthesis"

end

/-- Modelled from the spec: a whole input is one `expr` followed by the
end of the tokens; stray trailing tokens are a parse error (spec
section 4.2). Every production either consumes a token or descends one
grammar level before recursing, so six units of fuel per token plus a
constant always suffice for inputs the grammar accepts. -/
def parse (ts : List Tok) : Except Err PyExpr :=
  match parseAdd (6 * ts.length + 6) ts with
  | .error e => .error e
  | .ok (e, []) => .ok e
  | .ok (_, _ :: _) => parseFail "unexpected trailing tokens"

/-- The `safe_eval` pipeline of the source: parse the expression string
(`ast.parse(expression, mode="eval")`, with syntax errors re-raised as
`ValueError`) and walk the resulting tree with `_eval`. -/
def safeEval (s : String) : Except Err Value :=
  match tokenize s with
  | .error e => .error e
  | .ok ts =>
      match parse ts with
      | .error e => .error e
      | .ok ast => evalPy ast

/-- The structured outcome dictionary of `CalculatorTool.execute`: either
`{expression, result}` or `{expression, error}`. -/
inductive ExecResult where
  | success (expression : String) (result : Value)
  | failure (expression : String) (error : String)
  deriving Repr

/-- The message each exception class is converted to by the `except`
clauses of `CalculatorTool.execute`: `ValueError` keeps its own message,
`ZeroDivisionError` becomes "Division by zero", `OverflowError` becomes
"Result too large", and any other exception is wrapped as
"Evaluation failed: ...". -/
def errMsg : Err → String
  | .valueError m => m
  | .zeroDivision => "Division by zero"
  | .overflow => "Result too large"
  | .typeError m => "Evaluation failed: " ++ m

/-- `CalculatorTool.execute`: reads the `expression` keyword argument with
default `""`, returns the fixed error shape on a missing or empty
expression, and otherwise wraps `safe_eval` so that every exception is
converted into the `{expression, error}` shape. -/
def execute (expressionArg : Option String) : ExecResult :=
  let expression := expressionArg.getD ""
  if expression = "" then .failure "" "No expression provided"
  else
    match safeEval expression with
    | .ok v => .success expression v
    | .error e => .failure expression (errMsg e)

/-- C1: the claim states that every AST component outside the closed
grammar and whitelist tables, including keyword arguments of a `Call`
node, produces a typed failure. The code violates this: `_eval` builds
the call arguments from `node.args` only and never reads
`node.keywords`, so `abs(-5, k=nosuchvar)` (whose AST is the `call` node
below, with the keyword argument carrying an identifier that is in
neither whitelist table) silently drops the keyword and evaluates to 5
instead of failing. -/
theorem calc_c1 :
    evalPy (.call (.name "abs") [.unaryOp .usub (.const (.int 5))]
        [(some "k", .name "nosuchvar")]) = .ok (.int 5) ∧
    SAFE_CONSTANTS.lookup "nosuchvar" = none ∧
    SAFE_FUNCTIONS.lookup "nosuchvar" = none :=
  ⟨rfl, rfl, rfl⟩

/-- C2: the claim states that no expression containing attribute access
or a non-numeric constant ever evaluates to a result. The code handles
the spec's own examples (a top-level attribute access and a string
literal both raise `ValueError`, second and third conjuncts), but the
claim's universal form fails: `abs(5, k=(1).x)` contains an attribute
access inside a keyword argument, which `_eval` silently drops, and the
expression evaluates to 5 (first conjunct). -/
theorem calc_c2 :
    evalPy (.call (.name "abs") [.const (.int 5)]
        [(some "k", .attrAccess (.const (.int 1)) "x")]) = .ok (.int 5) ∧
    evalPy (.attrAccess (.const (.int 1)) "somefield") =
      .error (.valueError "Unsupported expression type: Attribute") ∧
    evalPy (.const (.str "hello")) =
      .error (.valueError "Unsupported constant type: <class 'str'>") :=
  ⟨rfl, rfl, rfl⟩

/-- C3: for every expression string, `CalculatorTool.execute` never
raises and returns either the success shape `{expression, result}` or
the failure shape `{expression, error}`, echoing the input expression
back unchanged in both cases (the empty string takes the
"No expression provided" failure path, which also echoes it
unchanged). -/
theorem calc_c3 (e : String) :
    (∃ v, execute (some e) = .success e v) ∨
    (∃ m, execute (some e) = .failure e m) := by
  by_cases h : e = ""
  · exact Or.inr ⟨"No expression provided", by simp [execute, h]⟩
  · cases hv : safeEval e with
    | ok v => exact Or.inl ⟨v, by simp [execute, h, hv]⟩
    | error er => exact Or.inr ⟨errMsg er, by simp [execute, h, hv]⟩

/-- C4: applying `/`, `//` or `%` to evaluated operands with a divisor
exactly equal to zero (int `0` or float `0.0`) raises
`ZeroDivisionError` whenever the dividend is numeric, never returns a
numeric result for any dividend, and surfaces as the message
"Division by zero" at the `execute` boundary. -/
theorem calc_c4 (l r : Value) (op : BOp)
    (hop : op = .div ∨ op = .floorDiv ∨ op = .mod)
    (hz : r.isZero = true) :
    (l.isNum = true → applyBin op l r = .error .zeroDivision) ∧
    (∀ v, applyBin op l r ≠ .ok v) ∧
    execute (some "1 / 0") = .failure "1 / 0" "Division by zero" := by
  refine ⟨?_, ?_, rfl⟩ <;>
    rcases hop with h | h | h <;> subst h <;>
      cases l <;> cases r <;>
        simp_all [applyBin, SAFE_OPERATORS, pyDiv, pyFloorDiv, pyMod,
          Value.asNum?, Value.isZero, Value.isNum]

/-- Witness for C4 at the concrete input `1 / 0` with the `/`
operator. -/
theorem calc_c4_w :
    (Value.int 0).isZero = true ∧ (Value.int 1).isNum = true ∧
    applyBin .div (.int 1) (.int 0) = .error .zeroDivision :=
  ⟨rfl, rfl, (calc_c4 (.int 1) (.int 0) .div (Or.inl rfl) rfl).1 rfl⟩

/-- C5: an identifier whose case-folded name is missing from the constant
table fails with "Unknown variable" naming the identifier; a call whose
case-folded bare-name target is missing from the function table fails
with "Unknown function" naming the target; and when the case-folded name
is present, resolution succeeds: the constant's value is returned, and
the call proceeds to evaluate its positional arguments and apply the
resolved function. -/
theorem calc_c5 (bad goodC goodF : String) (v : Value) (spec : FuncSpec)
    (args : List PyExpr) (kws : List (Option String × PyExpr))
    (h1 : SAFE_CONSTANTS.lookup (pyLower bad) = none)
    (h2 : SAFE_FUNCTIONS.lookup (pyLower bad) = none)
    (h3 : SAFE_CONSTANTS.lookup (pyLower goodC) = some v)
    (h4 : SAFE_FUNCTIONS.lookup (pyLower goodF) = some spec) :
    evalPy (.name bad) = .error (.valueError ("Unknown variable: " ++ bad)) ∧
    evalPy (.call (.name bad) args kws) =
      .error (.valueError ("Unknown function: " ++ bad)) ∧
    evalPy (.name goodC) = .ok v ∧
    evalPy (.call (.name goodF) args kws) =
      (match evalArgs args with
       | .error er => .error er
       | .ok vs => applyFuncSpec spec vs) := by
  refine ⟨?_, ?_, ?_, ?_⟩ <;> simp [evalPy, h1, h2, h3, h4]

/-- Witness for C5: `nosuchname` resolves in neither table; `PI`
case-insensitively resolves to the pi constant; `MAX`
case-insensitively resolves to the max function. -/
theorem calc_c5_w :
    SAFE_CONSTANTS.lookup (pyLower "nosuchname") = none ∧
    SAFE_FUNCTIONS.lookup (pyLower "nosuchname") = none ∧
    SAFE_CONSTANTS.lookup (pyLower "PI") = some (.float piFloat) ∧
    SAFE_FUNCTIONS.lookup (pyLower "MAX") = some maxSpec ∧
    (evalPy (.name "nosuchname") =
        .error (.valueError ("Unknown variable: " ++ "nosuchname")) ∧
      evalPy (.call (.name "nosuchname")
          [.const (.int 3), .const (.int 1)] []) =
        .error (.valueError ("Unknown function: " ++ "nosuchname")) ∧
      evalPy (.name "PI") = .ok (.float piFloat) ∧
      evalPy (.call (.name "MAX") [.const (.int 3), .const (.int 1)] []) =
        (match evalArgs [.const (.int 3), .const (.int 1)] with
         | .error er => .error er
         | .ok vs => applyFuncSpec maxSpec vs)) :=
  ⟨rfl, rfl, rfl, rfl,
    calc_c5 "nosuchname" "PI" "MAX" (.float piFloat) maxSpec
      [.const (.int 3), .const (.int 1)] [] rfl rfl rfl rfl⟩

/-- C6: a call to a whitelisted function whose evaluated positional
arguments violate the function's arity contract fails with the host
`TypeError` (the spec's `EvaluationError`, the generic-exception
bucket of the boundary) carrying that function's expected-versus-received
argument-count message. -/
theorem calc_c6 (fid : String) (spec : FuncSpec) (argEs : List PyExpr)
    (kws : List (Option String × PyExpr)) (vs : List Value)
    (h1 : SAFE_FUNCTIONS.lookup (pyLower fid) = some spec)
    (h2 : evalArgs argEs = .ok vs)
    (h3 : spec.arity vs.length = false) :
    evalPy (.call (.name fid) argEs kws) =
      .error (.typeError (spec.arityMsg vs.length)) := by
  simp [evalPy, h1, h2, applyFuncSpec, h3]

/-- Witness for C6 at the concrete input `sqrt(1, 2)`: `math.sqrt` takes
exactly one argument. -/
theorem calc_c6_w :
    SAFE_FUNCTIONS.lookup (pyLower "sqrt") =
      some (mathRealSpec "sqrt" (fun x => x ≥ 0)) ∧
    evalArgs [.const (.int 1), .const (.int 2)] = .ok [.int 1, .int 2] ∧
    (mathRealSpec "sqrt" (fun x => x ≥ 0)).arity 2 = false ∧
    evalPy (.call (.name "sqrt") [.const (.int 1), .const (.int 2)] []) =
      .error (.typeError
        ((mathRealSpec "sqrt" (fun x => x ≥ 0)).arityMsg 2)) :=
  ⟨rfl, rfl, rfl,
    calc_c6 "sqrt" (mathRealSpec "sqrt" (fun x => x ≥ 0))
      [.const (.int 1), .const (.int 2)] [] [.int 1, .int 2] rfl rfl rfl⟩

/-- C7: grouping under the spec grammar: `+ - * / // %` are left
associative, `**` is right associative, unary sign binds between the
multiplicative tier and the left operand of `**` (tighter than `*`,
looser than `**` on the left, while the right operand of `**` may carry
a sign), and the two pinned evaluations hold:
`-2 ** 2 = -4` and `2 ** -2 = 0.25`. -/
theorem calc_c7 (a b c : Int) :
    parse [.num (.int a), .op "+", .num (.int b), .op "-", .num (.int c)] =
      .ok (.binOp .sub (.binOp .add (.const (.int a)) (.const (.int b)))
        (.const (.int c))) ∧
    parse [.num (.int a), .op "*", .num (.int b), .op "/", .num (.int c)] =
      .ok (.binOp .div (.binOp .mult (.const (.int a)) (.const (.int b)))
        (.const (.int c))) ∧
    parse [.num (.int a), .op "//", .num (.int b), .op "%", .num (.int c)] =
      .ok (.binOp .mod (.binOp .floorDiv (.const (.int a)) (.const (.int b)))
        (.const (.int c))) ∧
    parse [.num (.int a), .op "**", .num (.int b), .op "**", .num (.int c)] =
      .ok (.binOp .pow (.const (.int a))
        (.binOp .pow (.const (.int b)) (.const (.int c)))) ∧
    parse [.op "-", .num (.int a), .op "**", .num (.int b)] =
      .ok (.unaryOp .usub (.binOp .pow (.const (.int a)) (.const (.int b)))) ∧
    parse [.num (.int a), .op "**", .op "-", .num (.int b)] =
      .ok (.binOp .pow (.const (.int a)) (.unaryOp .usub (.const (.int b)))) ∧
    parse [.op "-", .num (.int a), .op "*", .num (.int b)] =
      .ok (.binOp .mult (.unaryOp .usub (.const (.int a)))
        (.const (.int b))) ∧
    parse [.num (.int a), .op "+", .num (.int b), .op "*", .num (.int c)] =
      .ok (.binOp .add (.const (.int a))
        (.binOp .mult (.const (.int b)) (.const (.int c)))) ∧
    safeEval "-2 ** 2" = .ok (.int (-4)) ∧
    safeEval "2 ** -2" = .ok (.float (1/4)) := by
  refine ⟨rfl, rfl, rfl, rfl, rfl, rfl, rfl, rfl, rfl, ?_⟩
  have h : safeEval "2 ** -2" =
      evalPy (.binOp .pow (.const (.int 2))
        (.unaryOp .usub (.const (.int 2)))) := rfl
  rw [h]
  norm_num [evalPy, pyPow, pyNeg, qpowInt, SAFE_OPERATORS, SAFE_UNARY,
    Int.toNat]

/-- C8: numeric-kind promotion: integer operands stay integer under
`+ - * // %`, true division by `/` always yields a float-kinded value
even for evenly divisible integers, and the four pinned evaluations
hold. -/
theorem calc_c8 (a b : Int) (h : b ≠ 0) :
    safeEval "2 + 2" = .ok (.int 4) ∧
    safeEval "15 / 3" = .ok (.float 5) ∧
    safeEval "17 // 5" = .ok (.int 3) ∧
    safeEval "17 % 5" = .ok (.int 2) ∧
    applyBin .add (.int a) (.int b) = .ok (.int (a + b)) ∧
    applyBin .sub (.int a) (.int b) = .ok (.int (a - b)) ∧
    applyBin .mult (.int a) (.int b) = .ok (.int (a * b)) ∧
    applyBin .floorDiv (.int a) (.int b) = .ok (.int (Int.fdiv a b)) ∧
    applyBin .mod (.int a) (.int b) = .ok (.int (Int.fmod a b)) ∧
    applyBin .div (.int a) (.int b) = .ok (.float ((a : ℚ) / (b : ℚ))) := by
  have h15 : safeEval "15 / 3" =
      evalPy (.binOp .div (.const (.int 15)) (.const (.int 3))) := rfl
  refine ⟨rfl, ?_, rfl, rfl, ?_, ?_, ?_, ?_, ?_, ?_⟩
  · rw [h15]; norm_num [evalPy, pyDiv, Value.asNum?, SAFE_OPERATORS]
  all_goals
    simp [applyBin, SAFE_OPERATORS, pyAdd, pySub, pyMul, pyFloorDiv, pyMod,
      pyDiv, Value.asNum?, h]

/-- Witness for C8 at `a = 15`, `b = 3`. -/
theorem calc_c8_w :
    ((3 : Int) ≠ 0) ∧
    applyBin .div (.int 15) (.int 3) = .ok (.float ((15 : ℚ) / (3 : ℚ))) :=
  ⟨by decide, (calc_c8 15 3 (by decide)).2.2.2.2.2.2.2.2.2⟩

/-- C9 counterexample: the claim says a list literal and a tuple literal
over the same elements evaluate to identical values. They do not: the
list literal evaluates to a Python list and the tuple literal to a
Python tuple, which are distinct values (first conjunct) and observably
different inside the evaluator itself, since `+` concatenates two lists
but raises `TypeError` on a list and a tuple (second and third
conjuncts). -/
theorem calc_c9_cex :
    evalPy (.list [.const (.int 1), .const (.int 2)]) ≠
      evalPy (.tuple [.const (.int 1), .const (.int 2)]) ∧
    evalPy (.binOp .add (.list [.const (.int 1)]) (.list [.const (.int 1)])) =
      .ok (.list [.int 1, .int 1]) ∧
    evalPy (.binOp .add (.list [.const (.int 1)])
        (.tuple [.const (.int 1)])) =
      .error (.typeError "unsupported operand type(s) for +") := by
  refine ⟨?_, rfl, rfl⟩
  simp [evalPy, evalArgs]

/-- C9 as amended: the list literal and the tuple literal over the same
element expressions evaluate those elements identically (the same
left-to-right element evaluation, with the same result on failure), and
the results differ only in the sequence kind wrapped around the element
values: a list for the list literal, a tuple for the tuple literal. -/
theorem calc_c9 (elts : List PyExpr) :
    evalPy (.list elts) =
      (match evalArgs elts with
       | .error er => .error er
       | .ok vs => .ok (.list vs)) ∧
    evalPy (.tuple elts) =
      (match evalArgs elts with
       | .error er => .error er
       | .ok vs => .ok (.tuple vs)) :=
  ⟨rfl, rfl⟩

/-- C10: calling `execute` with the `expression` argument missing, or
bound to the empty string, returns exactly the
`{error: "No expression provided", expression: ""}` shape, before any
parsing or evaluation is attempted. -/
theorem calc_c10 :
    execute none = .failure "" "No expression provided" ∧
    execute (some "") = .failure "" "No expression provided" :=
  ⟨rfl, rfl⟩

end CanvasChat
